import Mathlib

/-
  Verification development for the eSRO game-server repository.

  The repository consists of:
    - src/AgentServer/zone.hpp            : the Zone world-grid header (declarations)
    - src/AgentServer/query/ip_query.cpp  : the IP-filter database query
    - src/GatewayServer/server_connection.hpp : the gateway connection states
    - src/khamaileon/src/parser/levelgold.cpp : the levelgold data-file line handler
    - src/khamaileon/src/parser/refmappingshopwithtab.cpp : the shop-mapping line handler

  Pure functions of the source are embedded as Lean functions; the C++
  container state (registries, area lists) is embedded as explicit state
  passed in and returned.  Machine integers are modelled as Nat/Int with
  explicit reductions modulo 2^w where a narrowing conversion occurs in
  the source.  Out-of-bounds accesses of std::vector::operator[] are
  modelled by Option-returning access: a `none` result marks undefined
  behaviour of the original code.
-/

set_option autoImplicit false

/- ------------------------------------------------------------------ -/
/- Gateway connection states: src/GatewayServer/server_connection.hpp  -/
/- ------------------------------------------------------------------ -/

/-- The `srv::CONNECTION_STATES` enum of
src/GatewayServer/server_connection.hpp lines 33-38, with its three
enumerators in declaration order. -/
inductive CONNECTION_STATES where
  | STATE_HANDSHAKE
  | STATE_VERSION
  | STATE_LOGIN
deriving DecidableEq

/-- The integral value a C++ enumerator receives: consecutive values
starting at 0, in declaration order. -/
def connectionStateValue : CONNECTION_STATES → Nat
  | CONNECTION_STATES.STATE_HANDSHAKE => 0
  | CONNECTION_STATES.STATE_VERSION => 1
  | CONNECTION_STATES.STATE_LOGIN => 2

/- ------------------------------------------------------------------ -/
/- The C standard library atoi, as used by both parser handlers        -/
/- ------------------------------------------------------------------ -/

/-- Whitespace characters skipped by C `atoi` (isspace in the C locale). -/
def isAtoiSpace (c : Char) : Bool :=
  c = ' ' || c = '\t' || c = '\n' || c = '\x0B' || c = '\x0C' || c = '\x0D'

/-- ASCII decimal digit test. -/
def isAtoiDigit (c : Char) : Bool :=
  '0' ≤ c && c ≤ '9'

/-- Value of the longest leading run of decimal digits, 0 when there is
no digit (as `atoi` returns 0 on no conversion). -/
def atoiDigits (cs : List Char) : Int :=
  (cs.takeWhile isAtoiDigit).foldl (fun a c => a * 10 + (Int.ofNat c.toNat - 48)) 0

/-- C `atoi`: skip leading whitespace, read an optional sign, then the
longest run of decimal digits; 0 when no digits follow.  (Overflow is
undefined behaviour in C; the embedding computes the exact value.) -/
def atoi (s : String) : Int :=
  match s.toList.dropWhile isAtoiSpace with
  | '-' :: rest => - atoiDigits rest
  | '+' :: rest => atoiDigits rest
  | cs => atoiDigits cs

/- ------------------------------------------------------------------ -/
/- src/khamaileon/src/parser/levelgold.cpp                             -/
/- ------------------------------------------------------------------ -/

/-- Narrowing conversion of a C++ `int` to `uint8_t`: reduction modulo 256. -/
def toUInt8val (i : Int) : Nat := (i.emod 256).toNat

/-- Narrowing conversion of a C++ `int` to `uint16_t`: reduction modulo 65536. -/
def toUInt16val (i : Int) : Nat := (i.emod 65536).toNat

/-- `ParserLevelgold` of src/khamaileon/src/parser/levelgold.cpp lines
25-35: reads `entries[0]` and `entries[1]`, converts them with `atoi`
(narrowed to `uint8_t` and `uint16_t`), and calls the callback once with
the pair.  The result is the list of callback invocations together with
the number of entries read; `none` marks an out-of-bounds
`std::vector::operator[]` access. -/
def ParserLevelgold (entries : List String) : Option (List (Nat × Nat) × Nat) :=
  match entries[0]? with
  | none => none
  | some e0 =>
    match entries[1]? with
    | none => none
    | some e1 => some ([(toUInt8val (atoi e0), toUInt16val (atoi e1))], 2)

/- ------------------------------------------------------------------ -/
/- src/khamaileon/src/parser/refmappingshopwithtab.cpp                 -/
/- ------------------------------------------------------------------ -/

/-- `ParserRefmappingshopwithtab` of
src/khamaileon/src/parser/refmappingshopwithtab.cpp lines 25-41: returns
early (without invoking the callback) unless `atoi(entries[0]) == 1` and
`atoi(entries[1]) == 4`; on success invokes the callback once with the
pair `(entries[2], entries[3])`.  The result is the list of callback
invocations together with the number of entries read; `none` marks an
out-of-bounds `std::vector::operator[]` access. -/
def ParserRefmappingshopwithtab (entries : List String) :
    Option (List (String × String) × Nat) :=
  match entries[0]? with
  | none => none
  | some e0 =>
    if atoi e0 ≠ 1 then some ([], 1)
    else
      match entries[1]? with
      | none => none
      | some e1 =>
        if atoi e1 ≠ 4 then some ([], 2)
        else
          match entries[2]?, entries[3]? with
          | some e2, some e3 => some ([(e2, e3)], 4)
          | _, _ => none

/- ------------------------------------------------------------------ -/
/- src/AgentServer/query/ip_query.cpp                                  -/
/- ------------------------------------------------------------------ -/

namespace DB

namespace IP

/-- `DB::IP::Filter::operator()` of src/AgentServer/query/ip_query.cpp
lines 27-39: builds one select against the `ip_filter` table for the
given IP, executes it, and returns true exactly when the query reports a
nonzero affected-row count.  The database is abstracted as the function
`affectedRows` giving the affected-row count the executed select reports
for an IP; the second component of the result counts the selects
executed. -/
def Filter (affectedRows : String → Nat) (ip : String) : Bool × Nat :=
  if affectedRows ip ≠ 0 then (true, 1) else (false, 1)

end IP

end DB

/- ------------------------------------------------------------------ -/
/- src/AgentServer/zone.hpp: data model                                -/
/- ------------------------------------------------------------------ -/

/-- The C++ types a declaration in src/AgentServer/zone.hpp can return,
as far as the removal operations are concerned. -/
inductive CppRetType where
  | voidRet
  | boolRet
deriving DecidableEq

/-- Return type of `Zone::RemovePlayer` as declared in
src/AgentServer/zone.hpp line 188: `bool RemovePlayer (const uint32_t)`. -/
def removePlayerReturnType : CppRetType := CppRetType.boolRet

/-- Return type of `Zone::RemoveNPC` as declared in
src/AgentServer/zone.hpp line 194: `bool RemoveNPC (const uint32_t)`. -/
def removeNPCReturnType : CppRetType := CppRetType.boolRet

/-- Return type of `Zone::RemoveItem` as declared in
src/AgentServer/zone.hpp line 200: `bool RemoveItem (const uint32_t)`. -/
def removeItemReturnType : CppRetType := CppRetType.boolRet

/-- Return type of `Zone::RemoveBuilding` as declared in
src/AgentServer/zone.hpp line 208: `void RemoveBuilding (const uint32_t)`. -/
def removeBuildingReturnType : CppRetType := CppRetType.voidRet

/-- A player entity; only its `uint32_t` ID (modelled as Nat) matters to
the registry operations, `payload` stands for the rest of the object. -/
structure Player where
  ID : Nat
  payload : Nat
deriving DecidableEq

/-- An NPC entity, as `Player`. -/
structure NPC where
  ID : Nat
  payload : Nat
deriving DecidableEq

/-- A world-placed dropable item entity, as `Player`. -/
structure DropableItem where
  ID : Nat
  payload : Nat
deriving DecidableEq

/-- A teleport building entity, as `Player`. -/
structure TeleportBuilding where
  ID : Nat
  payload : Nat
deriving DecidableEq

/-- A registry of one Zone (the `boost::unordered_map<uint32_t,
boost::shared_ptr<T>>` members of class Zone, or the building vector),
modelled as an association list of ID/entity pairs. -/
abbrev Registry (α : Type) : Type := List (Nat × α)

/-- Modelled from the spec: the definitions of `Zone::Remove*` are not in
src/ (src/AgentServer/zone.hpp only declares them).  Spec section 4.1:
"`Remove*(id) → bool`: removes and reports whether an entity with that ID
existed."  The flag reports presence of the ID before the call and the
returned registry has every entry with that ID removed. -/
def removeEntity {α : Type} (id : Nat) (reg : Registry α) : Bool × Registry α :=
  (reg.any (fun e => e.1 == id), reg.filter (fun e => e.1 != id))

/-- Modelled from the spec: `Zone::RemovePlayer` (declared at
src/AgentServer/zone.hpp line 188, definition missing from src/), per
spec section 4.1. -/
def RemovePlayer (playerID : Nat) (reg : Registry Player) : Bool × Registry Player :=
  removeEntity playerID reg

/-- Modelled from the spec: `Zone::RemoveNPC` (declared at
src/AgentServer/zone.hpp line 194, definition missing from src/), per
spec section 4.1. -/
def RemoveNPC (npcID : Nat) (reg : Registry NPC) : Bool × Registry NPC :=
  removeEntity npcID reg

/-- Modelled from the spec: `Zone::RemoveItem` (declared at
src/AgentServer/zone.hpp line 200, definition missing from src/), per
spec section 4.1. -/
def RemoveItem (itemID : Nat) (reg : Registry DropableItem) : Bool × Registry DropableItem :=
  removeEntity itemID reg

/-- Modelled from the spec: `Zone::RemoveBuilding` (declared at
src/AgentServer/zone.hpp line 208, definition missing from src/), per
spec section 4.1 — except that the declaration returns `void`, so the
embedding returns only the updated registry and no flag. -/
def RemoveBuilding (buildingID : Nat) (reg : Registry TeleportBuilding) :
    Registry TeleportBuilding :=
  (removeEntity buildingID reg).2

/-- Modelled from the spec: `Zone::InsertPlayer` (declared at
src/AgentServer/zone.hpp line 184, definition missing from src/).  Spec
section 4.1: "adds the entity to the corresponding registry keyed by its
ID"; for a duplicate ID the spec (section 3) leaves replace-or-reject
open and its section 8 round-trip property requires that the inserted
player is the one found afterwards, so the embedding replaces. -/
def InsertPlayer (p : Player) (reg : Registry Player) : Registry Player :=
  (p.ID, p) :: reg.filter (fun e => e.1 != p.ID)

/-- Modelled from the spec: `Zone::FindPlayer` (declared at
src/AgentServer/zone.hpp line 186, definition missing from src/).  Spec
section 4.1: "returns the entity if present, else an explicit not-found
result". -/
def FindPlayer (playerID : Nat) (reg : Registry Player) : Option Player :=
  (reg.find? (fun e => e.1 == playerID)).map (fun e => e.2)

/-- Modelled from the spec: `Zone::Count` (declared at
src/AgentServer/zone.hpp line 225, definition missing from src/).  Spec
section 4.1: "current player occupancy". -/
def Count (reg : Registry Player) : Nat := reg.length

/- ------------------------------------------------------------------ -/
/- src/AgentServer/zone.hpp: adjacency resolver                        -/
/- ------------------------------------------------------------------ -/

/-- The `AdjacentZone` struct of src/AgentServer/zone.hpp lines 71-77:
inclusive neighbor-cell bounds in grid coordinates; the `uint8_t` fields
are modelled as Nat (the in-grid theorems bound them by 255). -/
structure AdjacentZone where
  min_x : Nat
  max_x : Nat
  min_y : Nat
  max_y : Nat
deriving DecidableEq

/-- Modelled from the spec: the free function `GetAdjacentZones`
(declared at src/AgentServer/zone.hpp line 94, definition missing from
src/).  Spec section 4.3: a pure function from a zone ID (encoding grid
X/Y) to the inclusive range of neighboring zone coordinates, clipped at
world-grid edges, never wrapping.  The `int16_t` ID encodes the `uint8_t`
grid coordinates as low byte X, high byte Y, and the 3-by-3 neighborhood
is clipped to the 0..255 grid (Nat subtraction clips at 0). -/
def GetAdjacentZones (zoneID : Nat) : AdjacentZone :=
  { min_x := zoneID % 256 - 1
    max_x := min (zoneID % 256 + 1) 255
    min_y := zoneID / 256 - 1
    max_y := min (zoneID / 256 + 1) 255 }

/- ------------------------------------------------------------------ -/
/- src/AgentServer/zone.hpp: zone areas and town test                  -/
/- ------------------------------------------------------------------ -/

/-- A world position; the source `Coord` carries (x, z, y) floats, of
which only the horizontal pair (x, z) takes part in the containment and
motion operations the claims are about, modelled as integers. -/
structure Coord where
  x : Int
  z : Int
deriving DecidableEq

/-- The `ZONE_TYPE` enum of src/AgentServer/zone.hpp lines 57-61. -/
inductive ZONE_TYPE where
  | ZONE_TOWN
  | ZONE_FIELD
deriving DecidableEq

/-- The `ZoneArea` struct of src/AgentServer/zone.hpp lines 63-69: a zone
type together with the area rect `left, top, right, bottom`. -/
structure ZoneArea where
  type : ZONE_TYPE
  left : Int
  top : Int
  right : Int
  bottom : Int
deriving DecidableEq

/-- Modelled from the spec: `ZoneArea::belongs` (declared at
src/AgentServer/zone.hpp line 65, definition missing from src/).  Spec
section 4.4: true iff the position's (x, z) falls within
[left, right] x [top, bottom], inclusive on all four edges. -/
def ZoneArea.belongs (a : ZoneArea) (pos : Coord) : Bool :=
  decide (a.left ≤ pos.x ∧ pos.x ≤ a.right ∧ a.top ≤ pos.z ∧ pos.z ≤ a.bottom)

/-- Modelled from the spec: `Zone::InsertDelimitedAreas` (declared at
src/AgentServer/zone.hpp line 216, definition missing from src/): appends
the area to the `DelimitedAreas` list, preserving insertion order. -/
def InsertDelimitedAreas (a : ZoneArea) (areas : List ZoneArea) : List ZoneArea :=
  areas ++ [a]

/-- Modelled from the spec: `Zone::IsInsideTown` (declared at
src/AgentServer/zone.hpp line 182, definition missing from src/).  Spec
section 4.2: "iterates `DelimitedAreas` in insertion order, returns true
on the first ZoneArea of type TOWN whose rect contains the position;
false if none matches or only FIELD areas match." -/
def IsInsideTown (areas : List ZoneArea) (pos : Coord) : Bool :=
  match areas with
  | [] => false
  | a :: rest =>
    if a.type = ZONE_TYPE.ZONE_TOWN && a.belongs pos then true
    else IsInsideTown rest pos

/- ------------------------------------------------------------------ -/
/- src/AgentServer/zone.hpp: motion resolution                         -/
/- ------------------------------------------------------------------ -/

/-- Number of uniform sampling steps for the straight segment from `src`
to `dest`: the Chebyshev distance of the horizontal coordinates, so that
consecutive samples differ by at most one unit per axis. -/
def nSteps (src dest : Coord) : Nat :=
  max (dest.x - src.x).natAbs (dest.z - src.z).natAbs

/-- The i-th (of n) uniform sample of the straight segment from `src` to
`dest`: sample 0 is `src` and sample n is `dest`. -/
def pointAt (src dest : Coord) (n i : Nat) : Coord :=
  { x := src.x + (dest.x - src.x) * (i : Int) / (n : Int)
    z := src.z + (dest.z - src.z) * (i : Int) / (n : Int) }

/-- Walk the samples `i+1, ..., i+rem` of the segment in order: stop with
`(false, sample i)` at the first unwalkable sample, or end with
`(true, dest)` when every remaining sample is walkable. -/
def resolveAux (w : Coord → Bool) (src dest : Coord) (n : Nat) : Nat → Nat → Bool × Coord
  | _, 0 => (true, dest)
  | i, rem + 1 =>
    if w (pointAt src dest n (i + 1)) then resolveAux w src dest n (i + 1) rem
    else (false, pointAt src dest n i)

/-- Modelled from the spec: `Zone::ResolveMotion` (declared at
src/AgentServer/zone.hpp line 214, definition missing from src/).  Spec
section 4.2: computes the furthest point reachable in a straight line
from `src` toward `dest` without crossing an impassable obstacle (per
NavigationMesh walkability and zone bounds, abstracted here as the
predicate `w`), writes the resolved endpoint, and returns whether `dest`
was fully reachable.  The segment is walked at uniform unit-resolution
samples; the walk stops just before the first unwalkable sample. -/
def ResolveMotion (w : Coord → Bool) (src dest : Coord) : Bool × Coord :=
  resolveAux w src dest (nSteps src dest) 0 (nSteps src dest)

/-- Walkability map used to exhibit an obstructed motion: every point is
walkable except (1, 0). -/
def wObstacleAtOne : Coord → Bool :=
  fun p => if p = { x := 1, z := 0 } then false else true

/-- Fully permissive walkability map: every point walkable. -/
def wAllWalkable : Coord → Bool := fun _ => true

/-- Walkability map used for the fully-obstructed walk of the
termination claim: every point is unwalkable except (0, 0). -/
def wOnlyOrigin : Coord → Bool :=
  fun p => if p = { x := 0, z := 0 } then true else false

/- ------------------------------------------------------------------ -/
/- Theorems                                                            -/
/- ------------------------------------------------------------------ -/

/-- Claim C7: the gateway connection layer's state machine has exactly
three states, HANDSHAKE, VERSION and LOGIN, with HANDSHAKE preceding
VERSION preceding LOGIN (in enumerator value order). -/
theorem connectionStates_spec :
    (∀ s : CONNECTION_STATES,
      s = CONNECTION_STATES.STATE_HANDSHAKE ∨
      s = CONNECTION_STATES.STATE_VERSION ∨
      s = CONNECTION_STATES.STATE_LOGIN) ∧
    CONNECTION_STATES.STATE_HANDSHAKE ≠ CONNECTION_STATES.STATE_VERSION ∧
    CONNECTION_STATES.STATE_VERSION ≠ CONNECTION_STATES.STATE_LOGIN ∧
    CONNECTION_STATES.STATE_HANDSHAKE ≠ CONNECTION_STATES.STATE_LOGIN ∧
    connectionStateValue CONNECTION_STATES.STATE_HANDSHAKE <
      connectionStateValue CONNECTION_STATES.STATE_VERSION ∧
    connectionStateValue CONNECTION_STATES.STATE_VERSION <
      connectionStateValue CONNECTION_STATES.STATE_LOGIN := by
  refine ⟨?_, by decide, by decide, by decide, by decide, by decide⟩
  intro s
  cases s
  · exact Or.inl rfl
  · exact Or.inr (Or.inl rfl)
  · exact Or.inr (Or.inr rfl)

/-- Claim C10: the IP filter executes exactly one select and returns
true iff the query reports a nonzero affected-row count for that IP,
returning false (not an error) when no row matches. -/
theorem ipFilter_spec (affectedRows : String → Nat) (ip : String) :
    (DB.IP.Filter affectedRows ip).2 = 1 ∧
    ((DB.IP.Filter affectedRows ip).1 = true ↔ affectedRows ip ≠ 0) ∧
    (affectedRows ip = 0 → DB.IP.Filter affectedRows ip = (false, 1)) := by
  by_cases h : affectedRows ip = 0 <;> simp [DB.IP.Filter, h]

/-- Witness for claim C10 at a concrete database and IP. -/
theorem ipFilter_spec_witness :
    DB.IP.Filter (fun _ => 0) "127.0.0.1" = (false, 1) ∧
    (DB.IP.Filter (fun _ => 2) "127.0.0.1").1 = true :=
  ⟨(ipFilter_spec (fun _ => 0) "127.0.0.1").2.2 rfl,
   (ipFilter_spec (fun _ => 2) "127.0.0.1").2.1.mpr (by decide)⟩

/-- Claim C9: with at least two entries, every index access of
`ParserLevelgold` is in bounds (the out-of-bounds branch is unreachable)
and the callback is invoked exactly once with the pair
(atoi entries[0] as uint8, atoi entries[1] as uint16). -/
theorem ParserLevelgold_spec (entries : List String) (h : 2 ≤ entries.length) :
    ∃ e0 e1, entries[0]? = some e0 ∧ entries[1]? = some e1 ∧
      ParserLevelgold entries =
        some ([(toUInt8val (atoi e0), toUInt16val (atoi e1))], 2) := by
  match entries, h with
  | e0 :: e1 :: rest, _ => exact ⟨e0, e1, by simp, by simp, by simp [ParserLevelgold]⟩

/-- Witness for claim C9 at a concrete entry list. -/
theorem ParserLevelgold_spec_witness :
    ∃ e0 e1, (["5", "100"] : List String)[0]? = some e0 ∧
      (["5", "100"] : List String)[1]? = some e1 ∧
      ParserLevelgold ["5", "100"] =
        some ([(toUInt8val (atoi e0), toUInt16val (atoi e1))], 2) :=
  ParserLevelgold_spec ["5", "100"] (by decide)

/-- Claim C8 (amended): with the first two entries present, the shop
mapping handler invokes its callback at most once; it fails early (after
reading just the failing entry) when the first entry does not parse to 1
or the second does not parse to 4; when both parse as required AND the
third and fourth entries exist, the callback is invoked once with the
pair of the third and fourth entries; when they do not exist, the
accesses `entries[2]`/`entries[3]` are out of bounds. -/
theorem ParserRefmappingshopwithtab_spec (entries : List String) (e0 e1 : String)
    (h0 : entries[0]? = some e0) (h1 : entries[1]? = some e1) :
    (atoi e0 ≠ 1 → ParserRefmappingshopwithtab entries = some ([], 1)) ∧
    (atoi e0 = 1 → atoi e1 ≠ 4 → ParserRefmappingshopwithtab entries = some ([], 2)) ∧
    (∀ e2 e3, atoi e0 = 1 → atoi e1 = 4 → entries[2]? = some e2 →
      entries[3]? = some e3 →
      ParserRefmappingshopwithtab entries = some ([(e2, e3)], 4)) ∧
    (atoi e0 = 1 → atoi e1 = 4 → entries[3]? = none →
      ParserRefmappingshopwithtab entries = none) ∧
    (∀ calls reads, ParserRefmappingshopwithtab entries = some (calls, reads) →
      calls.length ≤ 1) := by
  refine ⟨?_, ?_, ?_, ?_, ?_⟩
  · intro h
    simp [ParserRefmappingshopwithtab, h0, h]
  · intro h h4
    simp [ParserRefmappingshopwithtab, h0, h1, h, h4]
  · intro e2 e3 h h4 h2 h3
    simp [ParserRefmappingshopwithtab, h0, h1, h, h4, h2, h3]
  · intro h h4 h3
    cases h2 : entries[2]? with
    | none => simp [ParserRefmappingshopwithtab, h0, h1, h, h4, h2]
    | some e2 => simp [ParserRefmappingshopwithtab, h0, h1, h, h4, h2, h3]
  · intro calls reads hres
    by_cases h : atoi e0 = 1
    · by_cases h4 : atoi e1 = 4
      · cases h2 : entries[2]? with
        | none =>
          simp [ParserRefmappingshopwithtab, h0, h1, h, h4, h2] at hres
        | some e2 =>
          cases h3 : entries[3]? with
          | none => simp [ParserRefmappingshopwithtab, h0, h1, h, h4, h2, h3] at hres
          | some e3 =>
            simp [ParserRefmappingshopwithtab, h0, h1, h, h4, h2, h3] at hres
            simp [← hres.1]
      · simp [ParserRefmappingshopwithtab, h0, h1, h, h4] at hres
        simp [hres.1]
    · simp [ParserRefmappingshopwithtab, h0, h] at hres
      simp [hres.1]

/-- Counterexample to claim C8 as stated: the entry list ["1", "4"] has
at least two elements and its first two entries parse to 1 and 4, yet the
handler does not invoke its callback with third and fourth entries —
those reads are out of bounds (the embedding yields `none`). -/
theorem ParserRefmappingshopwithtab_oob_counterexample :
    atoi "1" = 1 ∧ atoi "4" = 4 ∧
    2 ≤ (["1", "4"] : List String).length ∧
    ParserRefmappingshopwithtab ["1", "4"] = none := by
  refine ⟨by decide, by decide, by decide, rfl⟩

/-- Witness for claim C8 at a concrete entry list of four entries. -/
theorem ParserRefmappingshopwithtab_spec_witness :
    ParserRefmappingshopwithtab ["1", "4", "a", "b"] = some ([("a", "b")], 4) ∧
    ParserRefmappingshopwithtab ["2", "4", "a", "b"] = some ([], 1) :=
  ⟨(ParserRefmappingshopwithtab_spec ["1", "4", "a", "b"] "1" "4" rfl rfl).2.2.1
      "a" "b" (by decide) (by decide) rfl rfl,
   (ParserRefmappingshopwithtab_spec ["2", "4", "a", "b"] "2" "4" rfl rfl).1
      (by decide)⟩

/-- The removal flag of a registry reports exactly whether an entry with
the given ID was present before the call. -/
theorem removeEntity_flag_iff {α : Type} (id : Nat) (reg : Registry α) :
    (removeEntity id reg).1 = true ↔ ∃ e ∈ reg, e.1 = id := by
  simp [removeEntity, List.any_eq_true]

/-- After removal no entry with the given ID remains in the registry. -/
theorem removeEntity_absent {α : Type} (id : Nat) (reg : Registry α) :
    List.all (removeEntity id reg).2 (fun e => e.1 != id) = true := by
  simp [removeEntity, List.all_eq_true]

/-- Claim C1 (amended): for players, NPCs and dropable items the removal
operation returns a boolean that is true iff an entity with that ID was
present in the registry before the call, and the entity is absent
afterwards; `RemoveBuilding` likewise leaves no building with that ID
behind, but it is declared `void` (src/AgentServer/zone.hpp line 208) and
returns no boolean, unlike the other three. -/
theorem removeOps_spec (id : Nat) (pl : Registry Player) (nl : Registry NPC)
    (il : Registry DropableItem) (bl : Registry TeleportBuilding) :
    ((RemovePlayer id pl).1 = true ↔ ∃ e ∈ pl, e.1 = id) ∧
    List.all (RemovePlayer id pl).2 (fun e => e.1 != id) = true ∧
    ((RemoveNPC id nl).1 = true ↔ ∃ e ∈ nl, e.1 = id) ∧
    List.all (RemoveNPC id nl).2 (fun e => e.1 != id) = true ∧
    ((RemoveItem id il).1 = true ↔ ∃ e ∈ il, e.1 = id) ∧
    List.all (RemoveItem id il).2 (fun e => e.1 != id) = true ∧
    List.all (RemoveBuilding id bl) (fun e => e.1 != id) = true ∧
    removePlayerReturnType = CppRetType.boolRet ∧
    removeNPCReturnType = CppRetType.boolRet ∧
    removeItemReturnType = CppRetType.boolRet ∧
    removeBuildingReturnType = CppRetType.voidRet :=
  ⟨removeEntity_flag_iff id pl, removeEntity_absent id pl,
   removeEntity_flag_iff id nl, removeEntity_absent id nl,
   removeEntity_flag_iff id il, removeEntity_absent id il,
   removeEntity_absent id bl, rfl, rfl, rfl, rfl⟩

/-- Counterexample to claim C1 as stated: `Zone::RemoveBuilding` is
declared `void` (src/AgentServer/zone.hpp line 208), so it does not
return a boolean at all, unlike the other three removal operations. -/
theorem removeBuilding_void_counterexample :
    removeBuildingReturnType = CppRetType.voidRet ∧
    removeBuildingReturnType ≠ CppRetType.boolRet := by
  decide

/-- Witness for claim C1 at a concrete ID and registries. -/
theorem removeOps_spec_witness :
    (RemovePlayer 1 [(1, Player.mk 1 0)]).1 = true :=
  ((removeOps_spec 1 [(1, Player.mk 1 0)] [] [] []).1).mpr
    ⟨(1, Player.mk 1 0), by simp, rfl⟩

/-- Claim C2: after `InsertPlayer p`, `FindPlayer p.ID` returns `p`;
after a subsequent `RemovePlayer p.ID` (which reports true), `FindPlayer
p.ID` returns the not-found result and `Count` is exactly one less than
immediately after the insert. -/
theorem insertFindRemove_spec (p : Player) (reg : Registry Player) :
    FindPlayer p.ID (InsertPlayer p reg) = some p ∧
    (RemovePlayer p.ID (InsertPlayer p reg)).1 = true ∧
    FindPlayer p.ID ((RemovePlayer p.ID (InsertPlayer p reg)).2) = none ∧
    Count ((RemovePlayer p.ID (InsertPlayer p reg)).2) + 1
      = Count (InsertPlayer p reg) := by
  refine ⟨?_, ?_, ?_, ?_⟩
  · simp [FindPlayer, InsertPlayer, List.find?]
  · simp [RemovePlayer, removeEntity, InsertPlayer]
  · simp [FindPlayer, RemovePlayer, removeEntity, InsertPlayer, List.find?_eq_none]
  · simp [Count, RemovePlayer, removeEntity, InsertPlayer, List.filter_filter]

/-- Claim C3: `GetAdjacentZones` is a pure function whose result is an
inclusive coordinate range: for any in-grid zone ID the range contains
the zone's own grid coordinates and stays within the 0..255 grid (never
out-of-grid, never wrapping), and for a zone in the interior of the grid
it is the full 3-by-3 neighborhood around the zone. -/
theorem GetAdjacentZones_spec (zoneID : Nat) :
    (zoneID < 65536 →
      (GetAdjacentZones zoneID).min_x ≤ zoneID % 256 ∧
      zoneID % 256 ≤ (GetAdjacentZones zoneID).max_x ∧
      (GetAdjacentZones zoneID).max_x ≤ 255 ∧
      (GetAdjacentZones zoneID).min_y ≤ zoneID / 256 ∧
      zoneID / 256 ≤ (GetAdjacentZones zoneID).max_y ∧
      (GetAdjacentZones zoneID).max_y ≤ 255) ∧
    (1 ≤ zoneID % 256 → zoneID % 256 ≤ 254 → 1 ≤ zoneID / 256 → zoneID / 256 ≤ 254 →
      GetAdjacentZones zoneID =
        { min_x := zoneID % 256 - 1, max_x := zoneID % 256 + 1,
          min_y := zoneID / 256 - 1, max_y := zoneID / 256 + 1 }) := by
  constructor
  · intro h
    simp only [GetAdjacentZones, Nat.min_def]
    split_ifs <;> omega
  · intro hx1 hx2 hy1 hy2
    simp only [GetAdjacentZones, AdjacentZone.mk.injEq, Nat.min_def]
    refine ⟨trivial, ?_, trivial, ?_⟩ <;> rw [if_pos (by omega)]

/-- Witness for claim C3 at the interior zone ID 257 (grid cell (1, 1))
and the corner zone ID 0. -/
theorem GetAdjacentZones_spec_witness :
    GetAdjacentZones 257 = { min_x := 0, max_x := 2, min_y := 0, max_y := 2 } ∧
    (GetAdjacentZones 0).max_x ≤ 255 := by
  constructor
  · have h := (GetAdjacentZones_spec 257).2 (by decide) (by decide) (by decide) (by decide)
    simpa using h
  · exact ((GetAdjacentZones_spec 0).1 (by decide)).2.2.1

/-- The town scan succeeds exactly when some TOWN-typed area of the list
contains the position; FIELD areas are skipped, not short-circuiting. -/
theorem isInsideTown_iff (areas : List ZoneArea) (pos : Coord) :
    IsInsideTown areas pos = true ↔
      ∃ a ∈ areas, a.type = ZONE_TYPE.ZONE_TOWN ∧ a.belongs pos = true := by
  induction areas with
  | nil => simp [IsInsideTown]
  | cons a rest ih =>
    simp only [IsInsideTown]
    split
    next h =>
      simp only [Bool.and_eq_true, decide_eq_true_eq] at h
      simp only [true_iff, List.mem_cons]
      exact ⟨a, Or.inl rfl, h.1, h.2⟩
    next h =>
      rw [ih]
      constructor
      · rintro ⟨b, hb, hprop⟩
        exact ⟨b, List.mem_cons_of_mem a hb, hprop⟩
      · rintro ⟨b, hb, hprop⟩
        rcases List.mem_cons.mp hb with heq | hmem
        · subst heq
          exact absurd (by simp [hprop.1, hprop.2]) h
        · exact ⟨b, hmem, hprop⟩

/-- Claim C4 (amended): `IsInsideTown` scans the delimited areas in
insertion order and returns true exactly when some area of type TOWN has
a rect containing the position (areas of type FIELD are skipped rather
than stopping the scan); it returns false when no area contains the
position or only FIELD areas do.  In particular, with a single TOWN area
(0,0)-(500,500) inserted via `InsertDelimitedAreas`, the result is true
at (250,250) and false at (1000,1000). -/
theorem IsInsideTown_spec (areas : List ZoneArea) (pos : Coord) :
    (IsInsideTown areas pos = true ↔
      ∃ a ∈ areas, a.type = ZONE_TYPE.ZONE_TOWN ∧ a.belongs pos = true) ∧
    IsInsideTown (InsertDelimitedAreas
      { type := ZONE_TYPE.ZONE_TOWN, left := 0, top := 0, right := 500, bottom := 500 } [])
      { x := 250, z := 250 } = true ∧
    IsInsideTown (InsertDelimitedAreas
      { type := ZONE_TYPE.ZONE_TOWN, left := 0, top := 0, right := 500, bottom := 500 } [])
      { x := 1000, z := 1000 } = false :=
  ⟨isInsideTown_iff areas pos, by decide, by decide⟩

/-- Counterexample to claim C4 as stated: with a FIELD area inserted
before a TOWN area over the same rect, the first area containing
(250,250) has type FIELD, yet `IsInsideTown` returns true — the scan
skips FIELD areas instead of deciding on the first containing area. -/
theorem IsInsideTown_firstmatch_counterexample :
    IsInsideTown
      [{ type := ZONE_TYPE.ZONE_FIELD, left := 0, top := 0, right := 500, bottom := 500 },
       { type := ZONE_TYPE.ZONE_TOWN, left := 0, top := 0, right := 500, bottom := 500 }]
      { x := 250, z := 250 } = true ∧
    (List.find? (fun a => ZoneArea.belongs a { x := 250, z := 250 })
      ([{ type := ZONE_TYPE.ZONE_FIELD, left := 0, top := 0, right := 500, bottom := 500 },
        { type := ZONE_TYPE.ZONE_TOWN, left := 0, top := 0, right := 500, bottom := 500 }]
        : List ZoneArea)).map (fun a => a.type) = some ZONE_TYPE.ZONE_FIELD := by
  decide

/-- Witness for claim C4: the TOWN membership direction applied at a
concrete area list and position. -/
theorem IsInsideTown_spec_witness :
    IsInsideTown
      [{ type := ZONE_TYPE.ZONE_TOWN, left := 0, top := 0, right := 500, bottom := 500 }]
      { x := 250, z := 250 } = true :=
  (IsInsideTown_spec
    [{ type := ZONE_TYPE.ZONE_TOWN, left := 0, top := 0, right := 500, bottom := 500 }]
    { x := 250, z := 250 }).1.mpr
    ⟨{ type := ZONE_TYPE.ZONE_TOWN, left := 0, top := 0, right := 500, bottom := 500 },
     by simp, rfl, by decide⟩

/-- Sample 0 of the segment is the source point. -/
theorem pointAt_zero (src dest : Coord) (n : Nat) : pointAt src dest n 0 = src := by
  cases src with
  | mk sx sz => simp [pointAt]

/-- Sample n of n of the segment is the destination point. -/
theorem pointAt_last (src dest : Coord) (n : Nat) (hn : n ≠ 0) :
    pointAt src dest n n = dest := by
  have hnz : (Nat.cast n : Int) ≠ 0 := by
    simpa using hn
  cases src with
  | mk sx sz =>
    cases dest with
    | mk dx dz =>
      simp only [pointAt, Coord.mk.injEq, Int.ofNat_eq_natCast]
      rw [Int.mul_ediv_cancel _ hnz, Int.mul_ediv_cancel _ hnz]
      constructor <;> ring

/-- When every remaining sample is walkable the walk reaches `dest`. -/
theorem resolveAux_all (w : Coord → Bool) (src dest : Coord) (n : Nat) :
    ∀ rem i, (∀ j, i < j → j ≤ i + rem → w (pointAt src dest n j) = true) →
      resolveAux w src dest n i rem = (true, dest) := by
  intro rem
  induction rem with
  | zero => intro i h; rfl
  | succ rem ih =>
    intro i h
    simp only [resolveAux]
    rw [h (i + 1) (by omega) (by omega)]
    simp only [if_true]
    exact ih (i + 1) (fun j h1 h2 => h j (by omega) (by omega))

/-- The walk either reaches `dest` or stops with false at some sample
strictly before the end, with the next sample unwalkable. -/
theorem resolveAux_cases (w : Coord → Bool) (src dest : Coord) (n : Nat) :
    ∀ rem i, resolveAux w src dest n i rem = (true, dest) ∨
      ∃ k, i ≤ k ∧ k < i + rem ∧
        resolveAux w src dest n i rem = (false, pointAt src dest n k) ∧
        w (pointAt src dest n (k + 1)) = false := by
  intro rem
  induction rem with
  | zero => intro i; exact Or.inl rfl
  | succ rem ih =>
    intro i
    simp only [resolveAux]
    split
    next h =>
      rcases ih (i + 1) with h1 | ⟨k, k1, k2, k3, k4⟩
      · exact Or.inl h1
      · exact Or.inr ⟨k, by omega, by omega, k3, k4⟩
    next h =>
      exact Or.inr ⟨i, le_refl i, by omega, rfl, by simpa using h⟩

/-- A walk that reports full reachability saw only walkable samples. -/
theorem resolveAux_true_all (w : Coord → Bool) (src dest : Coord) (n : Nat) :
    ∀ rem i, resolveAux w src dest n i rem = (true, dest) →
      ∀ j, i < j → j ≤ i + rem → w (pointAt src dest n j) = true := by
  intro rem
  induction rem with
  | zero =>
    intro i _ j h1 h2
    omega
  | succ rem ih =>
    intro i heq j h1 h2
    revert heq
    simp only [resolveAux]
    split
    next hw =>
      intro heq
      by_cases hj : j = i + 1
      · subst hj; exact hw
      · exact ih (i + 1) heq j (by omega) (by omega)
    next hw =>
      intro heq
      simp at heq

/-- A strictly earlier sample of the segment differs from `dest`: along
the dominant axis the samples advance by exactly one unit per step. -/
theorem pointAt_ne_dest (src dest : Coord) (k : Nat)
    (hn : 0 < nSteps src dest) (hk : k < nSteps src dest) :
    pointAt src dest (nSteps src dest) k ≠ dest := by
  intro heq
  have hnz : (Nat.cast (nSteps src dest) : Int) ≠ 0 := by
    simp only [ne_eq, Nat.cast_eq_zero]
    omega
  have hxz : (dest.x - src.x).natAbs = nSteps src dest ∨
      (dest.z - src.z).natAbs = nSteps src dest := by
    rcases Nat.le_total (dest.x - src.x).natAbs (dest.z - src.z).natAbs with h | h
    · right; simp [nSteps, Nat.max_eq_right h]
    · left; simp [nSteps, Nat.max_eq_left h]
  rcases hxz with ha | hb
  · have hx := congrArg Coord.x heq
    simp only [pointAt, Int.ofNat_eq_natCast] at hx
    rcases Int.natAbs_eq_iff.mp ha with hdx | hdx
    · rw [hdx, Int.mul_ediv_cancel_left _ hnz] at hx
      omega
    · rw [hdx, neg_mul, Int.neg_ediv_of_dvd (dvd_mul_right _ _),
        Int.mul_ediv_cancel_left _ hnz] at hx
      omega
  · have hz := congrArg Coord.z heq
    simp only [pointAt, Int.ofNat_eq_natCast] at hz
    rcases Int.natAbs_eq_iff.mp hb with hdz | hdz
    · rw [hdz, Int.mul_ediv_cancel_left _ hnz] at hz
      omega
    · rw [hdz, neg_mul, Int.neg_ediv_of_dvd (dvd_mul_right _ _),
        Int.mul_ediv_cancel_left _ hnz] at hz
      omega

/-- Claim C5 (amended): when every sample of the straight line from
`src` to `dest` is walkable, `ResolveMotion` returns true with the
resolved endpoint equal to `dest`; when some sample is unwalkable it
returns false and the resolved endpoint is a sample of the segment
strictly before `dest` (never `dest` itself, though possibly `src` when
the obstruction is immediately adjacent to `src`). -/
theorem ResolveMotion_spec (w : Coord → Bool) (src dest : Coord) :
    ((∀ j, 1 ≤ j → j ≤ nSteps src dest →
        w (pointAt src dest (nSteps src dest) j) = true) →
      ResolveMotion w src dest = (true, dest)) ∧
    ((∃ j, 1 ≤ j ∧ j ≤ nSteps src dest ∧
        w (pointAt src dest (nSteps src dest) j) = false) →
      (ResolveMotion w src dest).1 = false ∧
      ∃ k, k < nSteps src dest ∧
        (ResolveMotion w src dest).2 = pointAt src dest (nSteps src dest) k ∧
        (ResolveMotion w src dest).2 ≠ dest) := by
  constructor
  · intro h
    exact resolveAux_all w src dest (nSteps src dest) (nSteps src dest) 0
      (fun j h1 h2 => h j (by omega) (by omega))
  · rintro ⟨j, hj1, hj2, hjw⟩
    rcases resolveAux_cases w src dest (nSteps src dest) (nSteps src dest) 0 with
      htrue | ⟨k, hk0, hkn, heq, hwk⟩
    · have := resolveAux_true_all w src dest (nSteps src dest) (nSteps src dest) 0
        htrue j (by omega) (by omega)
      rw [this] at hjw
      exact absurd hjw (by simp)
    · have hres : ResolveMotion w src dest
          = (false, pointAt src dest (nSteps src dest) k) := heq
      rw [hres]
      refine ⟨rfl, k, by omega, rfl, ?_⟩
      exact pointAt_ne_dest src dest k (by omega) (by omega)

/-- Counterexample to claim C5 as stated: walking from (0,0) toward
(2,0) with the point (1,0) unwalkable — a point strictly between source
and destination — the resolved endpoint is (0,0), the source itself,
which does not lie strictly between src and dest. -/
theorem ResolveMotion_strict_counterexample :
    ResolveMotion wObstacleAtOne { x := 0, z := 0 } { x := 2, z := 0 }
      = (false, { x := 0, z := 0 }) ∧
    wObstacleAtOne { x := 1, z := 0 } = false ∧
    pointAt { x := 0, z := 0 } { x := 2, z := 0 }
      (nSteps { x := 0, z := 0 } { x := 2, z := 0 }) 1 = { x := 1, z := 0 } ∧
    wObstacleAtOne { x := 0, z := 0 } = true ∧
    wObstacleAtOne { x := 2, z := 0 } = true := by
  decide

/-- Witness for claim C5: an unobstructed walk reaching its destination,
and an obstructed walk reporting false. -/
theorem ResolveMotion_spec_witness :
    ResolveMotion wAllWalkable { x := 0, z := 0 } { x := 2, z := 0 }
      = (true, { x := 2, z := 0 }) ∧
    (ResolveMotion wObstacleAtOne { x := 0, z := 0 } { x := 2, z := 0 }).1 = false :=
  ⟨(ResolveMotion_spec wAllWalkable { x := 0, z := 0 } { x := 2, z := 0 }).1
      (fun j h1 h2 => rfl),
   ((ResolveMotion_spec wObstacleAtOne { x := 0, z := 0 } { x := 2, z := 0 }).2
      ⟨1, by decide, by decide, by decide⟩).1⟩

/-- Claim C6: `ResolveMotion` is a total function that always produces a
resolved endpoint — either `dest` on full reachability, or a sample of
the segment otherwise — and when the very first step of the path is
already obstructed the result degrades to `src` itself. -/
theorem ResolveMotion_total (w : Coord → Bool) (src dest : Coord) :
    (ResolveMotion w src dest = (true, dest) ∨
      ((ResolveMotion w src dest).1 = false ∧
        ∃ k, k < nSteps src dest ∧
          (ResolveMotion w src dest).2 = pointAt src dest (nSteps src dest) k)) ∧
    (0 < nSteps src dest → w (pointAt src dest (nSteps src dest) 1) = false →
      ResolveMotion w src dest = (false, src)) := by
  constructor
  · rcases resolveAux_cases w src dest (nSteps src dest) (nSteps src dest) 0 with
      htrue | ⟨k, hk0, hkn, heq, hwk⟩
    · exact Or.inl htrue
    · have hres : ResolveMotion w src dest
          = (false, pointAt src dest (nSteps src dest) k) := heq
      rw [hres]
      exact Or.inr ⟨rfl, k, by omega, rfl⟩
  · intro hpos hw1
    obtain ⟨m, hm⟩ : ∃ m, nSteps src dest = m + 1 := ⟨nSteps src dest - 1, by omega⟩
    show resolveAux w src dest (nSteps src dest) 0 (nSteps src dest) = (false, src)
    rw [hm] at hw1 ⊢
    simp only [resolveAux, Nat.zero_add, hw1]
    simp [pointAt_zero]

/-- Witness for claim C6: a fully obstructed walk degrades to the
source point. -/
theorem ResolveMotion_total_witness :
    ResolveMotion wOnlyOrigin { x := 0, z := 0 } { x := 3, z := 3 }
      = (false, { x := 0, z := 0 }) :=
  (ResolveMotion_total wOnlyOrigin { x := 0, z := 0 } { x := 3, z := 3 }).2
    (by decide) (by decide)
